import Mathlib

/-!
Shallow embedding of the commitment-pool Solana program
(programs/commitment-pool/src).  Pubkeys are modeled as Nat, u64
arithmetic wraps modulo 2 ^ 64 where the source performs additions
on u64 fields, u16 likewise modulo 2 ^ 16, and i64 timestamps are
modeled as Int (the source only compares them and adds a value
bounded by 30 * 86400, far from the i64 bounds).
-/

abbrev Pubkey := Nat

def U64MOD : Nat := 2 ^ 64

def U16MOD : Nat := 2 ^ 16

/-- GoalType enum from state.rs. -/
inductive GoalType where
  | DailyDCA (amount : Nat) (token_mint : Pubkey)
  | HodlToken (token_mint : Pubkey) (min_balance : Nat)
  | LifestyleHabit (habit_name : String)
  deriving DecidableEq

/-- PoolStatus enum from state.rs. -/
inductive PoolStatus where
  | Pending
  | Active
  | Ended
  | Settled
  deriving DecidableEq

/-- ParticipantStatus enum from state.rs. -/
inductive ParticipantStatus where
  | Active
  | Success
  | Failed
  | Forfeit
  deriving DecidableEq

/-- DistributionMode enum from state.rs. -/
inductive DistributionMode where
  | Competitive
  | Charity
  | Split (winner_percent : Nat)
  deriving DecidableEq

/-- ErrorCode enum from errors.rs (NoWinners and ParticipantNotFound are
declared there; whether any instruction raises them is settled by the
theorems below). -/
inductive ErrorCode where
  | PoolNotActive
  | PoolFull
  | InvalidStakeAmount
  | PoolAlreadyEnded
  | Unauthorized
  | PoolNotEnded
  | ParticipantNotFound
  | InvalidDay
  | NoWinners
  deriving DecidableEq

/-- CommitmentPool account from state.rs. -/
structure CommitmentPool where
  authority : Pubkey
  pool_id : Nat
  goal_type : GoalType
  stake_amount : Nat
  duration_days : Nat
  max_participants : Nat
  min_participants : Nat
  participant_count : Nat
  total_staked : Nat
  charity_address : Pubkey
  distribution_mode : DistributionMode
  pool_status : PoolStatus
  start_timestamp : Int
  end_timestamp : Int
  bump : Nat
  deriving DecidableEq

/-- Participant account from state.rs. -/
structure Participant where
  pool : Pubkey
  wallet : Pubkey
  stake_amount : Nat
  join_timestamp : Int
  status : ParticipantStatus
  days_verified : Nat
  bump : Nat
  deriving DecidableEq

/-- On-chain state relevant to one pool: the pool account, the
participant accounts keyed by wallet, and the lamport balance of the
pool vault PDA. -/
structure ChainState where
  poolKey : Pubkey
  pool : CommitmentPool
  participants : List Participant
  vault : Nat
  deriving DecidableEq

deriving instance DecidableEq for Except

/-- Validation of the Split winner_percent, mirroring the
if-let in create_pool.rs. -/
def split_percent_ok : DistributionMode → Prop
  | .Split wp => wp ≤ 100
  | _ => True

instance (m : DistributionMode) : Decidable (split_percent_ok m) :=
  match m with
  | .Split wp => (inferInstance : Decidable (wp ≤ 100))
  | .Competitive => .isTrue trivial
  | .Charity => .isTrue trivial

/-- create_pool.rs handler.  Every require uses
ErrorCode InvalidStakeAmount, exactly as in the source. -/
def create_pool_handler (authority : Pubkey) (pool_id : Nat) (goal_type : GoalType)
    (stake_amount duration_days max_participants min_participants : Nat)
    (charity_address : Pubkey) (distribution_mode : DistributionMode)
    (now : Int) (bump : Nat) : Except ErrorCode CommitmentPool :=
  if 0 < stake_amount then
    if 0 < duration_days ∧ duration_days ≤ 30 then
      if 0 < max_participants ∧ max_participants ≤ 100 then
        if 0 < min_participants ∧ min_participants ≤ max_participants then
          if split_percent_ok distribution_mode then
            .ok { authority := authority, pool_id := pool_id, goal_type := goal_type,
                  stake_amount := stake_amount, duration_days := duration_days,
                  max_participants := max_participants, min_participants := min_participants,
                  participant_count := 0, total_staked := 0,
                  charity_address := charity_address, distribution_mode := distribution_mode,
                  pool_status := .Pending, start_timestamp := now,
                  end_timestamp := now + (duration_days : Int) * 86400, bump := bump }
          else .error .InvalidStakeAmount
        else .error .InvalidStakeAmount
      else .error .InvalidStakeAmount
    else .error .InvalidStakeAmount
  else .error .InvalidStakeAmount

/-- join_pool.rs handler.  The source sets only pool, wallet,
stake_amount and bump on the new participant account; the other
fields keep the Anchor zero-initialized values (status byte 0 is
ParticipantStatus Active, days_verified 0, join_timestamp 0 — the
clock is fetched but never stored).  The stake transfer credits the
vault. -/
def join_pool_handler (s : ChainState) (wallet : Pubkey) : Except ErrorCode ChainState :=
  if s.pool.pool_status = .Pending ∨ s.pool.pool_status = .Active then
    if s.pool.participant_count < s.pool.max_participants then
      .ok { s with
        pool := { s.pool with
          participant_count := (s.pool.participant_count + 1) % U16MOD,
          total_staked := (s.pool.total_staked + s.pool.stake_amount) % U64MOD,
          pool_status := if s.pool.pool_status = .Pending then .Active
                         else s.pool.pool_status },
        participants := s.participants ++
          [{ pool := s.poolKey, wallet := wallet, stake_amount := s.pool.stake_amount,
             join_timestamp := 0, status := .Active, days_verified := 0, bump := 0 }],
        vault := (s.vault + s.pool.stake_amount) % U64MOD }
    else .error .PoolFull
  else .error .PoolNotActive

/-- verify.rs handler.  The authority account is a bare Signer that the
handler never reads (its comment defers verification off-chain), so the
parameter is unused here exactly as in the source.  Note the
participant-not-active require reuses ErrorCode PoolNotActive.  The
source first assigns days_verified := max days_verified day and then
tests the updated field against duration_days; the branches below write
out the two resulting records of that sequence. -/
def verify_handler (pool : CommitmentPool) (participant : Participant)
    (authority : Pubkey) (day : Nat) (passed : Bool) : Except ErrorCode Participant :=
  if pool.pool_status = .Active then
    if participant.status = .Active then
      if 0 < day ∧ day ≤ pool.duration_days then
        if passed then
          if pool.duration_days ≤ max participant.days_verified day then
            .ok { participant with
              days_verified := max participant.days_verified day,
              status := .Success }
          else
            .ok { participant with
              days_verified := max participant.days_verified day }
        else .ok { participant with status := .Failed }
      else .error .InvalidDay
    else .error .PoolNotActive
  else .error .PoolNotActive

/-- forfeit.rs handler (present in the instructions module; not exposed
as a program entry point in lib.rs, included for completeness of the
step relation). -/
def forfeit_handler (pool : CommitmentPool) (participant : Participant)
    (participant_wallet : Pubkey) : Except ErrorCode Participant :=
  if pool.pool_status = .Active then
    if participant.wallet = participant_wallet then
      if participant.status = .Active then
        .ok { participant with status := .Forfeit }
      else .error .PoolNotActive
    else .error .Unauthorized
  else .error .PoolNotActive

/-- distribute.rs handler.  It performs no token transfer and touches no
participant account: after the end-check it marks an Active pool Ended
and then unconditionally marks the pool Settled (the source comment
delegates actual distribution to an off-chain agent). -/
def distribute_handler (s : ChainState) (authority : Pubkey) (now : Int) :
    Except ErrorCode ChainState :=
  if s.pool.pool_status = .Ended ∨ s.pool.end_timestamp ≤ now then
    if s.pool.pool_status = .Active then
      .ok { s with pool := { { s.pool with pool_status := PoolStatus.Ended } with
                             pool_status := PoolStatus.Settled } }
    else
      .ok { s with pool := { s.pool with pool_status := PoolStatus.Settled } }
  else .error .PoolNotEnded

/-- The program instructions exposed on an existing pool (lib.rs),
plus forfeit. -/
inductive Op where
  | join (wallet : Pubkey)
  | verify (wallet : Pubkey) (authority : Pubkey) (day : Nat) (passed : Bool)
  | forfeit (wallet : Pubkey) (signer : Pubkey)
  | distribute (authority : Pubkey) (now : Int)
  deriving DecidableEq

/-- Outcome of submitting one instruction: success with the new state, a
program error (the transaction reverts), or a failure of Anchor account
resolution (init on an existing account, or a missing participant
account), which also reverts. -/
inductive StepResult where
  | ok (s : ChainState)
  | progErr (e : ErrorCode)
  | accountErr
  deriving DecidableEq

def findParticipant (s : ChainState) (wallet : Pubkey) : Option Participant :=
  s.participants.find? (fun p => p.wallet == wallet)

def setParticipant (s : ChainState) (wallet : Pubkey) (p : Participant) : ChainState :=
  { s with participants := s.participants.map (fun q => if q.wallet == wallet then p else q) }

/-- One instruction against the chain: Anchor account constraints first
(PDA init for join must be fresh; verify and forfeit need the
participant account of the given wallet), then the handler. -/
def step (op : Op) (s : ChainState) : StepResult :=
  match op with
  | .join wallet =>
      if s.participants.any (fun p => p.wallet == wallet) then .accountErr
      else match join_pool_handler s wallet with
        | .ok s1 => .ok s1
        | .error e => .progErr e
  | .verify wallet authority day passed =>
      match findParticipant s wallet with
      | none => .accountErr
      | some participant =>
          match verify_handler s.pool participant authority day passed with
          | .ok p1 => .ok (setParticipant s wallet p1)
          | .error e => .progErr e
  | .forfeit wallet signer =>
      match findParticipant s wallet with
      | none => .accountErr
      | some participant =>
          match forfeit_handler s.pool participant signer with
          | .ok p1 => .ok (setParticipant s wallet p1)
          | .error e => .progErr e
  | .distribute authority now =>
      match distribute_handler s authority now with
      | .ok s1 => .ok s1
      | .error e => .progErr e

/-- On-chain effect of an instruction: failures revert, leaving the
state unchanged. -/
def exec (op : Op) (s : ChainState) : ChainState :=
  match step op s with
  | .ok s1 => s1
  | _ => s

/-- A freshly created pool account with an empty vault and no
participants. -/
def initState (poolKey : Pubkey) (pool : CommitmentPool) : ChainState :=
  { poolKey := poolKey, pool := pool, participants := [], vault := 0 }

/-- States reachable from a successful create_pool by any sequence of
program instructions. -/
inductive Reachable : ChainState → Prop where
  | init (poolKey authority : Pubkey) (pool_id : Nat) (goal_type : GoalType)
      (stake_amount duration_days max_participants min_participants : Nat)
      (charity_address : Pubkey) (distribution_mode : DistributionMode)
      (now : Int) (bump : Nat) (pool : CommitmentPool) :
      create_pool_handler authority pool_id goal_type stake_amount duration_days
        max_participants min_participants charity_address distribution_mode
        now bump = .ok pool →
      Reachable (initState poolKey pool)
  | next (op : Op) (s s' : ChainState) :
      Reachable s → step op s = .ok s' → Reachable s'

/-- Aggregate invariant of a pool account maintained by the program. -/
def PoolInv (s : ChainState) : Prop :=
  s.pool.max_participants ≤ 100 ∧
  s.pool.participant_count ≤ s.pool.max_participants ∧
  s.pool.total_staked = s.pool.participant_count * s.pool.stake_amount % U64MOD

/-! Concrete test states: the Scenario A pool of the specification
(stake 100, duration 3 days, max 2, min 1, Competitive), created at
time 0 by authority 1 with charity target 2, pool PDA 10, wallets 21
and 22, agent signer 9. -/

def poolA : CommitmentPool :=
  { authority := 1, pool_id := 1, goal_type := .DailyDCA 5 7, stake_amount := 100,
    duration_days := 3, max_participants := 2, min_participants := 1,
    participant_count := 0, total_staked := 0, charity_address := 2,
    distribution_mode := .Competitive, pool_status := .Pending,
    start_timestamp := 0, end_timestamp := 259200, bump := 0 }

def s0 : ChainState := initState 10 poolA

def s1 : ChainState := exec (.join 21) s0

def s2 : ChainState := exec (.join 22) s1

def s3 : ChainState := exec (.distribute 9 259200) s2

def sA1 : ChainState := exec (.verify 21 9 1 true) s2

def sA2 : ChainState := exec (.verify 21 9 2 true) sA1

def sA3 : ChainState := exec (.verify 21 9 3 true) sA2

def sA4 : ChainState := exec (.verify 22 9 2 false) sA3

def sAFinal : ChainState := exec (.distribute 9 259200) sA4

def sD1 : ChainState := exec (.verify 21 9 1 false) s2

def sD2 : ChainState := exec (.verify 22 9 1 false) sD1

def sDFinal : ChainState := exec (.distribute 9 259200) sD2

/-- A concrete participant record of the Scenario A pool after two
verified days, used as a witness input. -/
def pW : Participant :=
  { pool := 10, wallet := 21, stake_amount := 100, join_timestamp := 0,
    status := .Active, days_verified := 2, bump := 0 }

/-! Helper lemmas about the step relation. -/

theorem setParticipant_pool (s : ChainState) (w : Pubkey) (p : Participant) :
    (setParticipant s w p).pool = s.pool := rfl

theorem setParticipant_vault (s : ChainState) (w : Pubkey) (p : Participant) :
    (setParticipant s w p).vault = s.vault := rfl

theorem create_pool_ok_fields (authority : Pubkey) (pool_id : Nat) (goal_type : GoalType)
    (stake_amount duration_days max_participants min_participants : Nat)
    (charity_address : Pubkey) (distribution_mode : DistributionMode)
    (now : Int) (bump : Nat) (pool : CommitmentPool)
    (h : create_pool_handler authority pool_id goal_type stake_amount duration_days
      max_participants min_participants charity_address distribution_mode
      now bump = .ok pool) :
    pool.participant_count = 0 ∧ pool.total_staked = 0 ∧
    pool.max_participants = max_participants ∧ max_participants ≤ 100 := by
  unfold create_pool_handler at h
  split_ifs at h with h1 h2 h3 h4 h5 <;>
    first
      | (injection h with h; subst h; exact ⟨rfl, rfl, rfl, h3.2⟩)
      | simp at h

theorem join_pool_ok_shape {s s1 : ChainState} {w : Pubkey}
    (hj : join_pool_handler s w = .ok s1) :
    (s.pool.pool_status = .Pending ∨ s.pool.pool_status = .Active) ∧
    s.pool.participant_count < s.pool.max_participants ∧
    s1.pool.participant_count = (s.pool.participant_count + 1) % U16MOD ∧
    s1.pool.total_staked = (s.pool.total_staked + s.pool.stake_amount) % U64MOD ∧
    s1.pool.max_participants = s.pool.max_participants ∧
    s1.pool.stake_amount = s.pool.stake_amount ∧
    (s1.pool.pool_status = PoolStatus.Active ∨ s1.pool.pool_status = s.pool.pool_status) := by
  unfold join_pool_handler at hj
  split_ifs at hj with hst hcnt hpend <;>
    first
      | exact Except.noConfusion hj
      | (injection hj with hj; subst hj;
         exact ⟨hst, hcnt, rfl, rfl, rfl, rfl, Or.inl rfl⟩)
      | (injection hj with hj; subst hj;
         exact ⟨hst, hcnt, rfl, rfl, rfl, rfl, Or.inr rfl⟩)

theorem join_ok_inv {s s' : ChainState} {w : Pubkey} (hinv : PoolInv s)
    (h : step (.join w) s = .ok s') : PoolInv s' := by
  simp only [step] at h
  split at h
  · exact absurd h (by simp)
  · cases hj : join_pool_handler s w with
    | error e => rw [hj] at h; simp at h
    | ok s1 =>
      rw [hj] at h
      injection h with h
      subst h
      obtain ⟨hst, hcnt, hc1, ht1, hm1, hs1, -⟩ := join_pool_ok_shape hj
      obtain ⟨hmax, hcount, htot⟩ := hinv
      have h16 : U16MOD = 65536 := by norm_num [U16MOD]
      have hlt : s.pool.participant_count + 1 < U16MOD := by omega
      refine ⟨?_, ?_, ?_⟩
      · rw [hm1]; exact hmax
      · rw [hc1, hm1, Nat.mod_eq_of_lt hlt]; omega
      · rw [ht1, hc1, hs1, Nat.mod_eq_of_lt hlt, htot, Nat.mod_add_mod]
        congr 1
        ring

theorem verify_ok_pool {s s' : ChainState} {w a : Pubkey} {d : Nat} {p : Bool}
    (h : step (.verify w a d p) s = .ok s') : s'.pool = s.pool := by
  simp only [step] at h
  split at h
  · simp at h
  · split at h
    · injection h with h; subst h; rfl
    · simp at h

theorem forfeit_ok_pool {s s' : ChainState} {w a : Pubkey}
    (h : step (.forfeit w a) s = .ok s') : s'.pool = s.pool := by
  simp only [step] at h
  split at h
  · simp at h
  · split at h
    · injection h with h; subst h; rfl
    · simp at h

theorem distribute_ok_shape {s s' : ChainState} {a : Pubkey} {now : Int}
    (h : step (.distribute a now) s = .ok s') :
    s' = { s with pool := { s.pool with pool_status := PoolStatus.Settled } } ∧
    (s.pool.pool_status = PoolStatus.Ended ∨ s.pool.end_timestamp ≤ now) := by
  simp only [step] at h
  cases hd : distribute_handler s a now with
  | error e => rw [hd] at h; simp at h
  | ok s1 =>
    rw [hd] at h
    injection h with h
    subst h
    unfold distribute_handler at hd
    split_ifs at hd with hg ha <;>
      first
        | exact Except.noConfusion hd
        | (injection hd with hd; subst hd; exact ⟨by simp, hg⟩)

theorem distribute_err_iff {s : ChainState} {a : Pubkey} {now : Int} :
    step (.distribute a now) s = .progErr .PoolNotEnded ↔
      (s.pool.pool_status ≠ PoolStatus.Ended ∧ now < s.pool.end_timestamp) := by
  simp only [step]
  cases hd : distribute_handler s a now with
  | ok s1 =>
    constructor
    · intro h; simp at h
    · intro hcond
      exfalso
      unfold distribute_handler at hd
      split_ifs at hd with hg ha <;>
        first
          | exact Except.noConfusion hd
          | (rcases hg with hg | hg;
             exacts [hcond.1 hg, absurd hg (not_le.mpr hcond.2)])
  | error e =>
    constructor
    · intro h
      unfold distribute_handler at hd
      split_ifs at hd with hg ha <;> try exact Except.noConfusion hd
      push_neg at hg
      exact hg
    · intro hcond
      unfold distribute_handler at hd
      split_ifs at hd with hg ha <;> try exact Except.noConfusion hd
      injection hd with hd
      subst hd
      rfl

theorem reachable_inv {s : ChainState} (h : Reachable s) : PoolInv s := by
  induction h with
  | init pk auth pid g st du mx mn ch dm now bp pool hc =>
    obtain ⟨h0, h1, h2, h3⟩ := create_pool_ok_fields _ _ _ _ _ _ _ _ _ _ _ _ hc
    refine ⟨?_, ?_, ?_⟩
    · simpa [initState, h2] using h3
    · simp [initState, h0]
    · simp [initState, h0, h1]
  | next op s s' hr hstep ih =>
    cases op with
    | join w => exact join_ok_inv ih hstep
    | verify w a d p =>
      have hp := verify_ok_pool hstep
      simp only [PoolInv, hp]
      exact ih
    | forfeit w a =>
      have hp := forfeit_ok_pool hstep
      simp only [PoolInv, hp]
      exact ih
    | distribute a now =>
      obtain ⟨hs', -⟩ := distribute_ok_shape hstep
      subst hs'
      simpa [PoolInv] using ih

theorem s0_reachable : Reachable s0 :=
  Reachable.init 10 1 1 (.DailyDCA 5 7) 100 3 2 1 2 .Competitive 0 0 poolA (by decide)

theorem s1_reachable : Reachable s1 :=
  Reachable.next (.join 21) s0 s1 s0_reachable (by decide)

theorem s2_reachable : Reachable s2 :=
  Reachable.next (.join 22) s1 s2 s1_reachable (by decide)

theorem s3_reachable : Reachable s3 :=
  Reachable.next (.distribute 9 259200) s2 s3 s2_reachable (by decide)

theorem sA4_reachable : Reachable sA4 :=
  Reachable.next (.verify 22 9 2 false) sA3 sA4
    (Reachable.next (.verify 21 9 3 true) sA2 sA3
      (Reachable.next (.verify 21 9 2 true) sA1 sA2
        (Reachable.next (.verify 21 9 1 true) s2 sA1 s2_reachable (by decide))
        (by decide))
      (by decide))
    (by decide)

theorem sD2_reachable : Reachable sD2 :=
  Reachable.next (.verify 22 9 1 false) sD1 sD2
    (Reachable.next (.verify 21 9 1 false) s2 sD1 s2_reachable (by decide))
    (by decide)

theorem step_join_ok {s s' : ChainState} {w : Pubkey}
    (h : step (.join w) s = .ok s') : join_pool_handler s w = .ok s' := by
  simp only [step] at h
  split at h
  · exact absurd h (by simp)
  · cases hj : join_pool_handler s w with
    | error e => rw [hj] at h; simp at h
    | ok s1 => rw [hj] at h; injection h with h; subst h; rfl

theorem step_verify_ok {s s' : ChainState} {w a : Pubkey} {d : Nat} {p : Bool}
    (h : step (.verify w a d p) s = .ok s') :
    ∃ q p1, findParticipant s w = some q ∧ verify_handler s.pool q a d p = .ok p1 ∧
      s' = setParticipant s w p1 := by
  simp only [step] at h
  split at h
  · simp at h
  next q heq =>
    split at h
    next p1 heq2 =>
      injection h with h
      exact ⟨q, p1, heq, heq2, h.symm⟩
    next e heq2 => simp at h

theorem step_forfeit_ok {s s' : ChainState} {w a : Pubkey}
    (h : step (.forfeit w a) s = .ok s') :
    ∃ q p1, findParticipant s w = some q ∧ forfeit_handler s.pool q a = .ok p1 ∧
      s' = setParticipant s w p1 := by
  simp only [step] at h
  split at h
  · simp at h
  next q heq =>
    split at h
    next p1 heq2 =>
      injection h with h
      exact ⟨q, p1, heq, heq2, h.symm⟩
    next e heq2 => simp at h

theorem verify_handler_ok_active {pool : CommitmentPool} {participant : Participant}
    {a : Pubkey} {day : Nat} {passed : Bool} {p1 : Participant}
    (h : verify_handler pool participant a day passed = .ok p1) :
    pool.pool_status = PoolStatus.Active := by
  unfold verify_handler at h
  split_ifs at h with hA hP hD hPass hF <;>
    first
      | exact Except.noConfusion h
      | exact hA

theorem forfeit_handler_ok_active {pool : CommitmentPool} {participant : Participant}
    {a : Pubkey} {p1 : Participant}
    (h : forfeit_handler pool participant a = .ok p1) :
    pool.pool_status = PoolStatus.Active := by
  unfold forfeit_handler at h
  split_ifs at h with hA hW hP <;>
    first
      | exact Except.noConfusion h
      | exact hA

theorem distribute_ok_of {s : ChainState} (a : Pubkey) (now : Int)
    (hg : s.pool.pool_status = PoolStatus.Ended ∨ s.pool.end_timestamp ≤ now) :
    step (.distribute a now) s =
      .ok { s with pool := { s.pool with pool_status := PoolStatus.Settled } } := by
  simp only [step, distribute_handler]
  rw [if_pos hg]
  by_cases ha : s.pool.pool_status = PoolStatus.Active
  · rw [if_pos ha]
  · rw [if_neg ha]

theorem exec_eq_of_not_ok {op : Op} {s : ChainState}
    (h : ∀ s', step op s ≠ .ok s') : exec op s = s := by
  unfold exec
  cases hs : step op s with
  | ok s1 => exact absurd hs (h s1)
  | progErr e => rfl
  | accountErr => rfl

/-! Claim theorems. -/

/-- C9: fail-fast law — for every Active participant in an Active pool
and every valid day (1 ≤ day ≤ duration_days), recording outcome
passed = false sets the participant status to Failed, regardless of the
current days_verified. -/
theorem c9_fail_fast (pool : CommitmentPool) (participant : Participant)
    (a : Pubkey) (day : Nat)
    (h1 : pool.pool_status = PoolStatus.Active)
    (h2 : participant.status = ParticipantStatus.Active)
    (h3 : 1 ≤ day) (h4 : day ≤ pool.duration_days) :
    verify_handler pool participant a day false =
      .ok { participant with status := ParticipantStatus.Failed } := by
  unfold verify_handler
  rw [if_pos h1, if_pos h2, if_pos ⟨h3, h4⟩]
  rfl

/-- Witness for c9_fail_fast: concrete participant with two passed days
fails immediately on a failed day 2 report. -/
theorem c9_fail_fast_witness :
    s2.pool.pool_status = PoolStatus.Active ∧
    pW.status = ParticipantStatus.Active ∧
    1 ≤ 2 ∧ 2 ≤ s2.pool.duration_days ∧
    verify_handler s2.pool pW 9 2 false =
      .ok { pW with status := ParticipantStatus.Failed } :=
  ⟨by decide, by decide, by decide, by decide,
   c9_fail_fast s2.pool pW 9 2 (by decide) (by decide) (by decide) (by decide)⟩

/-- C10: for every Active participant in an Active pool and valid day,
recording outcome passed = true sets days_verified to
max days_verified day (so it never decreases and resubmission is
idempotent) and sets the status to Success exactly when the resulting
days_verified reaches duration_days. -/
theorem c10_pass_semantics (pool : CommitmentPool) (participant : Participant)
    (a : Pubkey) (day : Nat)
    (h1 : pool.pool_status = PoolStatus.Active)
    (h2 : participant.status = ParticipantStatus.Active)
    (h3 : 1 ≤ day) (h4 : day ≤ pool.duration_days) :
    ∃ p1, verify_handler pool participant a day true = .ok p1 ∧
      p1.days_verified = max participant.days_verified day ∧
      participant.days_verified ≤ p1.days_verified ∧
      (p1.status = ParticipantStatus.Success ↔
        pool.duration_days ≤ max participant.days_verified day) := by
  unfold verify_handler
  rw [if_pos h1, if_pos h2, if_pos ⟨h3, h4⟩, if_pos rfl]
  by_cases hfin : pool.duration_days ≤ max participant.days_verified day
  · rw [if_pos hfin]
    exact ⟨_, rfl, rfl, le_max_left _ _, by simp [hfin]⟩
  · rw [if_neg hfin]
    refine ⟨_, rfl, rfl, le_max_left _ _, ?_⟩
    constructor
    · intro hs
      have hs2 : participant.status = ParticipantStatus.Success := hs
      rw [h2] at hs2
      exact ParticipantStatus.noConfusion hs2
    · intro hfin2
      exact absurd hfin2 hfin

/-- Witness for c10_pass_semantics: concrete participant with two
verified days passing day 3 of a 3-day pool reaches Success. -/
theorem c10_pass_semantics_witness :
    s2.pool.pool_status = PoolStatus.Active ∧
    pW.status = ParticipantStatus.Active ∧
    1 ≤ 3 ∧ 3 ≤ s2.pool.duration_days ∧
    (∃ p1, verify_handler s2.pool pW 9 3 true = .ok p1 ∧
      p1.days_verified = max pW.days_verified 3 ∧
      pW.days_verified ≤ p1.days_verified ∧
      (p1.status = ParticipantStatus.Success ↔
        s2.pool.duration_days ≤ max pW.days_verified 3)) :=
  ⟨by decide, by decide, by decide, by decide,
   c10_pass_semantics s2.pool pW 9 3 (by decide) (by decide) (by decide) (by decide)⟩

/-- C6 counterexample: caller 999 is neither the pool authority (1) nor
any stored verifier key (the pool stores no verifier identity at all),
yet verify_participant succeeds and mutates the participant instead of
failing Unauthorized, refuting the claim as stated. -/
theorem c6_counterexample :
    (999 : Pubkey) ≠ s2.pool.authority ∧
    step (.verify 21 999 1 true) s2 = .ok sA1 ∧
    step (.verify 21 999 1 true) s2 ≠ .progErr .Unauthorized ∧
    findParticipant sA1 21 ≠ findParticipant s2 21 := by
  refine ⟨by decide, by decide, by decide, by decide⟩

/-- C6 amended: verify_participant performs no caller-identity check:
its result is independent of the signing authority and it never fails
Unauthorized. -/
theorem c6_no_identity_check (pool : CommitmentPool) (participant : Participant)
    (a b : Pubkey) (day : Nat) (passed : Bool) :
    verify_handler pool participant a day passed =
      verify_handler pool participant b day passed ∧
    verify_handler pool participant a day passed ≠ .error .Unauthorized := by
  refine ⟨rfl, ?_⟩
  unfold verify_handler
  split_ifs <;> simp

/-- C3: whenever distribute_rewards succeeds, the only state change is
the pool_status field (set to Settled): the vault balance, every
participant account, and every other pool field are unchanged. -/
theorem c3_distribute_frame (s s' : ChainState) (a : Pubkey) (now : Int)
    (h : step (.distribute a now) s = .ok s') :
    s'.pool.pool_status = PoolStatus.Settled ∧
    s'.vault = s.vault ∧
    s'.participants = s.participants ∧
    s'.poolKey = s.poolKey ∧
    s'.pool.authority = s.pool.authority ∧
    s'.pool.pool_id = s.pool.pool_id ∧
    s'.pool.goal_type = s.pool.goal_type ∧
    s'.pool.stake_amount = s.pool.stake_amount ∧
    s'.pool.duration_days = s.pool.duration_days ∧
    s'.pool.max_participants = s.pool.max_participants ∧
    s'.pool.min_participants = s.pool.min_participants ∧
    s'.pool.participant_count = s.pool.participant_count ∧
    s'.pool.total_staked = s.pool.total_staked ∧
    s'.pool.charity_address = s.pool.charity_address ∧
    s'.pool.distribution_mode = s.pool.distribution_mode ∧
    s'.pool.start_timestamp = s.pool.start_timestamp ∧
    s'.pool.end_timestamp = s.pool.end_timestamp ∧
    s'.pool.bump = s.pool.bump := by
  obtain ⟨hs, -⟩ := distribute_ok_shape h
  subst hs
  exact ⟨rfl, rfl, rfl, rfl, rfl, rfl, rfl, rfl, rfl, rfl, rfl, rfl, rfl, rfl,
    rfl, rfl, rfl, rfl⟩

/-- Witness for c3_distribute_frame on the concrete Scenario A pool. -/
theorem c3_distribute_frame_witness :
    step (.distribute 9 259200) s2 = .ok s3 ∧
    s3.vault = s2.vault ∧ s3.participants = s2.participants :=
  ⟨by decide,
   (c3_distribute_frame s2 s3 9 259200 (by decide)).2.1,
   (c3_distribute_frame s2 s3 9 259200 (by decide)).2.2.1⟩

/-- C4 counterexample: a reachable Active pool past its end_timestamp.
The claim says a close operation moves it to Ended; the program has no
closePool instruction, and its only expiry-gated instruction,
distribute_rewards, moves the pool to Settled, never leaving it in
Ended. -/
theorem c4_counterexample :
    Reachable s2 ∧
    s2.pool.pool_status = PoolStatus.Active ∧
    s2.pool.end_timestamp ≤ (259200 : Int) ∧
    step (.distribute 9 259200) s2 = .ok s3 ∧
    s3.pool.pool_status = PoolStatus.Settled ∧
    PoolStatus.Settled ≠ PoolStatus.Ended :=
  ⟨s2_reachable, by decide, by decide, by decide, by decide, by decide⟩

/-- C4 amended: the program has no closePool instruction and no
PoolNotYetExpired error.  No instruction ever leaves a pool in status
Ended; expiry is handled inside distribute_rewards, which fails
PoolNotEnded when called with status not Ended before end_timestamp,
and on or after end_timestamp succeeds and moves the pool (transiently
through Ended when it was Active) directly to Settled. -/
theorem c4_close_behavior :
    (∀ (op : Op) (s s' : ChainState), step op s = .ok s' →
      s'.pool.pool_status ≠ PoolStatus.Ended) ∧
    (∀ (s : ChainState) (a : Pubkey) (now : Int),
      s.pool.pool_status ≠ PoolStatus.Ended → now < s.pool.end_timestamp →
      step (.distribute a now) s = .progErr .PoolNotEnded) ∧
    (∀ (s : ChainState) (a : Pubkey) (now : Int), s.pool.end_timestamp ≤ now →
      ∃ s', step (.distribute a now) s = .ok s' ∧
        s'.pool.pool_status = PoolStatus.Settled) := by
  refine ⟨?_, ?_, ?_⟩
  · intro op s s' hok
    cases op with
    | join w =>
      obtain ⟨hst, -, -, -, -, -, hres⟩ := join_pool_ok_shape (step_join_ok hok)
      rcases hres with hres | hres
      · rw [hres]; decide
      · rw [hres]
        rcases hst with hst | hst <;> rw [hst] <;> decide
    | verify w a d p =>
      obtain ⟨q, p1, -, hv, hs⟩ := step_verify_ok hok
      subst hs
      rw [setParticipant_pool, verify_handler_ok_active hv]
      decide
    | forfeit w a =>
      obtain ⟨q, p1, -, hv, hs⟩ := step_forfeit_ok hok
      subst hs
      rw [setParticipant_pool, forfeit_handler_ok_active hv]
      decide
    | distribute a now =>
      obtain ⟨hs, -⟩ := distribute_ok_shape hok
      subst hs
      simp
  · intro s a now h1 h2
    exact distribute_err_iff.mpr ⟨h1, h2⟩
  · intro s a now hle
    exact ⟨_, distribute_ok_of a now (Or.inr hle), rfl⟩

/-- Witness for c4_close_behavior at concrete inputs: an early call
fails PoolNotEnded, a late call settles, and the settled result is not
Ended. -/
theorem c4_close_behavior_witness :
    step (.distribute 9 100) s0 = .progErr .PoolNotEnded ∧
    (∃ s', step (.distribute 9 259200) s2 = .ok s' ∧
      s'.pool.pool_status = PoolStatus.Settled) ∧
    s3.pool.pool_status ≠ PoolStatus.Ended :=
  ⟨c4_close_behavior.2.1 s0 9 100 (by decide) (by decide),
   c4_close_behavior.2.2 s2 9 259200 (by decide),
   c4_close_behavior.1 (.distribute 9 259200) s2 s3 (by decide)⟩

/-- C5 counterexample: a reachable Active pool on which settle succeeds
(because now has reached end_timestamp), refuting the claim that settle
fails PoolNotEnded on every pool whose status is Pending or Active. -/
theorem c5_counterexample :
    Reachable s2 ∧
    s2.pool.pool_status = PoolStatus.Active ∧
    step (.distribute 9 259200) s2 = .ok s3 ∧
    step (.distribute 9 259200) s2 ≠ .progErr .PoolNotEnded :=
  ⟨s2_reachable, by decide, by decide, by decide⟩

/-- C5 amended: settle fails with PoolNotEnded exactly when the pool
status is not Ended and now is before end_timestamp, in which case the
chain state is unchanged; in particular a Pending or Active pool before
expiry cannot be settled, but one past end_timestamp can. -/
theorem c5_settle_guard (s : ChainState) (a : Pubkey) (now : Int) :
    (step (.distribute a now) s = .progErr .PoolNotEnded ↔
      (s.pool.pool_status ≠ PoolStatus.Ended ∧ now < s.pool.end_timestamp)) ∧
    (s.pool.pool_status ≠ PoolStatus.Ended → now < s.pool.end_timestamp →
      exec (.distribute a now) s = s) := by
  refine ⟨distribute_err_iff, fun h1 h2 => ?_⟩
  unfold exec
  rw [distribute_err_iff.mpr ⟨h1, h2⟩]

/-- Witness for c5_settle_guard: the Pending Scenario A pool at time 100
fails PoolNotEnded and is unchanged. -/
theorem c5_settle_guard_witness :
    s0.pool.pool_status ≠ PoolStatus.Ended ∧
    (100 : Int) < s0.pool.end_timestamp ∧
    step (.distribute 9 100) s0 = .progErr .PoolNotEnded ∧
    exec (.distribute 9 100) s0 = s0 :=
  ⟨by decide, by decide,
   (c5_settle_guard s0 9 100).1.mpr ⟨by decide, by decide⟩,
   (c5_settle_guard s0 9 100).2 (by decide) (by decide)⟩

/-- C7: in every state reachable from create_pool by any sequence of
instructions, total_staked equals participant_count times stake_amount
in the u64 value domain (and exactly, whenever the product does not
overflow u64). -/
theorem c7_total_staked_invariant (s : ChainState) (h : Reachable s) :
    s.pool.total_staked = s.pool.participant_count * s.pool.stake_amount % U64MOD ∧
    (s.pool.participant_count * s.pool.stake_amount < U64MOD →
      s.pool.total_staked = s.pool.participant_count * s.pool.stake_amount) := by
  have hinv := reachable_inv h
  exact ⟨hinv.2.2, fun hlt => by rw [hinv.2.2, Nat.mod_eq_of_lt hlt]⟩

/-- Witness for c7_total_staked_invariant on the reachable Scenario A
pool after both joins: total_staked 200 = 2 * 100. -/
theorem c7_total_staked_invariant_witness :
    s2.pool.total_staked = s2.pool.participant_count * s2.pool.stake_amount % U64MOD ∧
    (s2.pool.participant_count * s2.pool.stake_amount < U64MOD →
      s2.pool.total_staked = s2.pool.participant_count * s2.pool.stake_amount) :=
  c7_total_staked_invariant s2 s2_reachable

/-- C8 counterexample: a reachable Settled pool at capacity; a further
join fails, but with PoolNotActive (the status check precedes the
capacity check), not PoolFull as the claim states. -/
theorem c8_counterexample :
    Reachable s3 ∧
    s3.pool.participant_count = s3.pool.max_participants ∧
    join_pool_handler s3 23 = .error .PoolNotActive ∧
    step (.join 23) s3 = .progErr .PoolNotActive ∧
    ErrorCode.PoolNotActive ≠ ErrorCode.PoolFull :=
  ⟨s3_reachable, by decide, by decide, by decide, by decide⟩

/-- C8 amended: in every reachable state participant_count never exceeds
max_participants; a join on a full pool that passes the joinability
check (status Pending or Active) fails PoolFull, and any join on a full
pool leaves the state unchanged. -/
theorem c8_capacity (s : ChainState) (w : Pubkey) (h : Reachable s) :
    s.pool.participant_count ≤ s.pool.max_participants ∧
    (s.pool.participant_count = s.pool.max_participants →
      ((s.pool.pool_status = PoolStatus.Pending ∨
        s.pool.pool_status = PoolStatus.Active) →
        join_pool_handler s w = .error .PoolFull) ∧
      exec (.join w) s = s) := by
  have hinv := reachable_inv h
  refine ⟨hinv.2.1, fun hfull => ⟨fun hst => ?_, ?_⟩⟩
  · unfold join_pool_handler
    rw [if_pos hst, if_neg (by omega)]
  · refine exec_eq_of_not_ok (fun s' hok => ?_)
    have hsh := join_pool_ok_shape (step_join_ok hok)
    exact absurd hsh.2.1 (by omega)

/-- Witness for c8_capacity: the third join on the full (max 2) Active
Scenario A pool fails PoolFull and changes nothing. -/
theorem c8_capacity_witness :
    s2.pool.participant_count = s2.pool.max_participants ∧
    join_pool_handler s2 23 = .error .PoolFull ∧
    exec (.join 23) s2 = s2 :=
  ⟨by decide,
   ((c8_capacity s2 23 s2_reachable).2 (by decide)).1 (by decide),
   ((c8_capacity s2 23 s2_reachable).2 (by decide)).2⟩

/-- C1: Scenario A evaluated on the code — the Competitive pool with
stake 100, one Success participant (21) and one Failed participant (22)
and 200 lamports escrowed; distribute_rewards succeeds but transfers
nothing: the vault still holds 200 (the winner receives 0, not 200, and
the charity receives nothing), every participant account is untouched,
and the pool is merely marked Settled. -/
theorem c1_no_payout :
    Reachable sA4 ∧
    sA4.pool.distribution_mode = DistributionMode.Competitive ∧
    (findParticipant sA4 21).map (fun p => p.status) =
      some ParticipantStatus.Success ∧
    (findParticipant sA4 22).map (fun p => p.status) =
      some ParticipantStatus.Failed ∧
    sA4.pool.stake_amount = 100 ∧
    sA4.vault = 200 ∧
    step (.distribute 9 259200) sA4 = .ok sAFinal ∧
    sAFinal.vault = 200 ∧
    sAFinal.participants = sA4.participants ∧
    sAFinal.pool.pool_status = PoolStatus.Settled :=
  ⟨sA4_reachable, by decide, by decide, by decide, by decide, by decide,
   by decide, by decide, by decide, by decide⟩

/-- C2: Scenario D evaluated on the code — the Competitive pool in which
both participants Failed (no winner); distribute_rewards does not fail
NoWinners: it succeeds and marks the pool Settled, so the pool does not
remain Ended. -/
theorem c2_settles_without_winners :
    Reachable sD2 ∧
    sD2.pool.distribution_mode = DistributionMode.Competitive ∧
    (∀ p ∈ sD2.participants, p.status ≠ ParticipantStatus.Success) ∧
    step (.distribute 9 259200) sD2 = .ok sDFinal ∧
    sDFinal.pool.pool_status = PoolStatus.Settled ∧
    sDFinal.pool.pool_status ≠ PoolStatus.Ended :=
  ⟨sD2_reachable, by decide, by decide, by decide, by decide, by decide⟩
